import Mathlib

/-!
A shallow embedding of the Pakit framing library (src/include/pakit.h and
src/src/pakit.c) together with proofs about its specification claims.

Modelling conventions:
* A C byte (uint8_t) is a Nat; the implicit conversion at the uint8_t
  parameter boundary is modelled by reducing modulo 256 at the point where
  the byte is stored.  Likewise uint16_t parameters of pakit_packet_create
  are reduced modulo 65536 on entry.
* The fixed 271-byte array PacketBuffer.buffer is modelled by the list of
  bytes written so far: pakit_init zeroes the whole struct and bytes are only
  ever written at index received_bytes (which then increments), so the
  written prefix determines every array cell the code ever reads, and
  received_bytes always equals the length of that prefix.  The union overlay
  of PacketHeader on the buffer is modelled by reading header fields at their
  byte offsets: sop = cells 0/1, type = cells 2/3, count_bytes = cells 4/5,
  size_bytes = cells 6/7, payload = cells 8 and following.
* NULL-pointer handling (the PAKIT_STATUS_ERROR_NULL_PARAM paths) concerns C
  pointers, which have no counterpart in the embedding; the receiver and the
  input buffer are taken to be valid.  The out-pointer of pakit_packet_create
  is modelled by an explicit packet_null flag, and the C bool result together
  with the record written through that pointer become a Bool and Option Packet
  pair.  The position out-parameter of pakit_receive_buffer is an Option Nat.
* pakit_receive_byte restarts itself once on a receiver in STATE_COMPLETE;
  that recursion is modelled with explicit fuel.  Fuel 2 is exact: after
  pakit_init the state is STATE_UNIQUE_ID, which never recurses again.
-/

namespace Pakit

/-- Result codes of the library, from the PakitStatus enum in pakit.h. -/
inductive PakitStatus where
| PAKIT_STATUS_SUCCESS
| PAKIT_STATUS_IN_PROGRESS
| PAKIT_STATUS_ERROR_INVALID_SOP
| PAKIT_STATUS_ERROR_SIZE_LARGE
| PAKIT_STATUS_ERROR_OVERFLOW
| PAKIT_STATUS_ERROR_NULL_PARAM
deriving DecidableEq

/-- States of the receiver state machine, from the ReceiverState enum in
pakit.h.  The header spells the first state STATE_UNIQUE_SOP while pakit.c
refers to it as STATE_UNIQUE_ID; both name the same initial state, spelled
here as in pakit.c. -/
inductive ReceiverState where
| STATE_UNIQUE_ID
| STATE_PACKET_TYPE
| STATE_COUNT
| STATE_SIZE
| STATE_PAYLOAD
| STATE_COMPLETE
deriving DecidableEq

def PACKET_SOP_SIZE : Nat := 2

def PACKET_TYPE_SIZE : Nat := 2

def PACKET_COUNT_SIZE : Nat := 2

def PACKET_SIZE_SIZE : Nat := 2

def HEADER_SIZE : Nat := PACKET_SOP_SIZE + PACKET_TYPE_SIZE + PACKET_COUNT_SIZE + PACKET_SIZE_SIZE

/-- From pakit.h: MAX_PACKET_SIZE is defined as (255 + HEADER_SIZE) = 263. -/
def MAX_PACKET_SIZE : Nat := 255 + HEADER_SIZE

def EXPECTED_SOP_0 : Nat := 0xB0

def EXPECTED_SOP_1 : Nat := 0xB2

/-- The Packet record of pakit.h.  The uint8_t arrays sop and type are two
separate byte fields each; payload is a possibly-NULL pointer, modelled as an
Option around the byte list it references. -/
structure Packet where
  sop0 : Nat
  sop1 : Nat
  type0 : Nat
  type1 : Nat
  count : Nat
  size : Nat
  payload : Option (List Nat)
deriving DecidableEq

/-- The PakitReceiver struct of pakit.h.  The 271-byte packet buffer is
modelled by the list of bytes written so far (see the module docstring);
received_bytes is recovered as the length of that list. -/
structure PakitReceiver where
  buffer : List Nat
  header_complete : Bool
  state : ReceiverState
  expected_payload_size : Nat
deriving DecidableEq

/-- The received_bytes counter of the C struct: always equal to the number of
bytes stored in the buffer since the last (re)initialization. -/
def PakitReceiver.received_bytes (r : PakitReceiver) : Nat := r.buffer.length

/-- pakit_init from pakit.c: memset the receiver to zero and set the initial
field values (the zeroed buffer is the empty written prefix). -/
def pakit_init : PakitReceiver :=
  { buffer := [], header_complete := false, state := .STATE_UNIQUE_ID,
    expected_payload_size := 0 }

/-- Big-endian combination of two header bytes, as computed in pakit.c:
(uint16_t)hi << 8 | lo. -/
def be16 (hi lo : Nat) : Nat := (hi <<< 8) ||| lo

/-- Body of pakit_receive_byte from pakit.c, with explicit fuel for the
self-restart performed in STATE_COMPLETE.  The fuel-exhaustion value is
never reached from fuel 2 because pakit_init puts the receiver in
STATE_UNIQUE_ID (see pakit_receive_byte_go_fuel_eq). -/
def pakit_receive_byte_go (fuel : Nat) (receiver : PakitReceiver) (byte : Nat) :
    PakitStatus × PakitReceiver :=
  match fuel with
  | 0 => (.PAKIT_STATUS_ERROR_NULL_PARAM, receiver)
  | fuel + 1 =>
    if receiver.received_bytes ≥ HEADER_SIZE + MAX_PACKET_SIZE then
      (.PAKIT_STATUS_ERROR_OVERFLOW, receiver)
    else
      let r := { receiver with buffer := receiver.buffer ++ [byte % 256] }
      match r.state with
      | .STATE_UNIQUE_ID =>
        if r.received_bytes = PACKET_SOP_SIZE then
          if r.buffer.getD 0 0 ≠ EXPECTED_SOP_0 ∨ r.buffer.getD 1 0 ≠ EXPECTED_SOP_1 then
            (.PAKIT_STATUS_ERROR_INVALID_SOP, pakit_init)
          else
            (.PAKIT_STATUS_IN_PROGRESS, { r with state := .STATE_PACKET_TYPE })
        else
          (.PAKIT_STATUS_IN_PROGRESS, r)
      | .STATE_PACKET_TYPE =>
        if r.received_bytes = PACKET_SOP_SIZE + PACKET_TYPE_SIZE then
          (.PAKIT_STATUS_IN_PROGRESS, { r with state := .STATE_COUNT })
        else
          (.PAKIT_STATUS_IN_PROGRESS, r)
      | .STATE_COUNT =>
        if r.received_bytes = PACKET_SOP_SIZE + PACKET_TYPE_SIZE + PACKET_COUNT_SIZE then
          (.PAKIT_STATUS_IN_PROGRESS, { r with state := .STATE_SIZE })
        else
          (.PAKIT_STATUS_IN_PROGRESS, r)
      | .STATE_SIZE =>
        if r.received_bytes = HEADER_SIZE then
          let r := { r with expected_payload_size := be16 (r.buffer.getD 6 0) (r.buffer.getD 7 0) }
          if r.expected_payload_size > MAX_PACKET_SIZE then
            (.PAKIT_STATUS_ERROR_SIZE_LARGE, pakit_init)
          else
            let r := { r with header_complete := true, state := .STATE_PAYLOAD }
            if r.expected_payload_size = 0 then
              (.PAKIT_STATUS_SUCCESS, { r with state := .STATE_COMPLETE })
            else
              (.PAKIT_STATUS_IN_PROGRESS, r)
        else
          (.PAKIT_STATUS_IN_PROGRESS, r)
      | .STATE_PAYLOAD =>
        if r.received_bytes ≥ HEADER_SIZE + r.expected_payload_size then
          (.PAKIT_STATUS_SUCCESS, { r with state := .STATE_COMPLETE })
        else
          (.PAKIT_STATUS_IN_PROGRESS, r)
      | .STATE_COMPLETE =>
        pakit_receive_byte_go fuel pakit_init byte

/-- pakit_receive_byte from pakit.c (for a non-NULL receiver). -/
def pakit_receive_byte (receiver : PakitReceiver) (byte : Nat) :
    PakitStatus × PakitReceiver :=
  pakit_receive_byte_go 2 receiver byte

/-- Fuel irrelevance: one unit of fuel already suffices on a freshly
initialized receiver, so the fuel bound 2 in pakit_receive_byte is exact. -/
theorem pakit_receive_byte_go_fuel_eq (byte : Nat) :
    pakit_receive_byte_go 1 pakit_init byte = pakit_receive_byte_go 2 pakit_init byte := rfl

/-- pakit_is_packet_complete from pakit.c, returning the Packet record copied
out when a complete packet is available (for a non-NULL out-pointer). -/
def pakit_is_packet_complete (receiver : PakitReceiver) : Option Packet :=
  if !receiver.header_complete then
    none
  else
    let size := be16 (receiver.buffer.getD 6 0) (receiver.buffer.getD 7 0)
    if receiver.received_bytes < HEADER_SIZE + size then
      none
    else
      some { sop0 := receiver.buffer.getD 0 0, sop1 := receiver.buffer.getD 1 0,
             type0 := receiver.buffer.getD 2 0, type1 := receiver.buffer.getD 3 0,
             count := be16 (receiver.buffer.getD 4 0) (receiver.buffer.getD 5 0),
             size := size,
             payload := some (receiver.buffer.drop HEADER_SIZE) }

/-- The while loop of pakit_receive_buffer from pakit.c: starting at
current_pos, feed bytes until the buffer is exhausted or a status other than
PAKIT_STATUS_IN_PROGRESS is produced; the returned Nat is the final position. -/
def pakit_receive_buffer_loop (receiver : PakitReceiver) (buffer : List Nat)
    (current_pos : Nat) : PakitStatus × PakitReceiver × Nat :=
  if h : current_pos < buffer.length then
    let res := pakit_receive_byte receiver (buffer.get ⟨current_pos, h⟩)
    if res.1 = .PAKIT_STATUS_IN_PROGRESS then
      pakit_receive_buffer_loop res.2 buffer (current_pos + 1)
    else
      (res.1, res.2, current_pos + 1)
  else
    (.PAKIT_STATUS_IN_PROGRESS, receiver, current_pos)
termination_by buffer.length - current_pos

/-- pakit_receive_buffer from pakit.c (for non-NULL receiver and buffer): the
position in/out parameter may be NULL, in which case processing starts at 0
and no final position is written back. -/
def pakit_receive_buffer (receiver : PakitReceiver) (buffer : List Nat)
    (position : Option Nat) : PakitStatus × PakitReceiver × Option Nat :=
  let current_pos := position.getD 0
  let res := pakit_receive_buffer_loop receiver buffer current_pos
  (res.1, res.2.1, if position.isSome then some res.2.2 else none)

/-- pakit_packet_create from pakit.c.  packet_null models a NULL out-pointer;
the result pairs the C bool return value with the record written on success. -/
def pakit_packet_create (packet_null : Bool) (packet_type count : Nat)
    (payload : Option (List Nat)) (payload_size : Nat) : Bool × Option Packet :=
  let packet_type := packet_type % 65536
  let count := count % 65536
  let payload_size := payload_size % 65536
  if packet_null then
    (false, none)
  else if (payload = none ∧ payload_size > 0) ∨ (payload ≠ none ∧ payload_size = 0) then
    (false, none)
  else
    (true, some { sop0 := EXPECTED_SOP_0, sop1 := EXPECTED_SOP_1,
                  type0 := (packet_type >>> 8) &&& 0xFF,
                  type1 := packet_type &&& 0xFF,
                  count := count, size := payload_size, payload := payload })

/-- Wire serialization of a packet record per the wire table of the spec:
the two marker bytes, the two type bytes, count and size as big-endian 16-bit
fields, then the payload bytes. -/
def serializePacket (p : Packet) : List Nat :=
  [p.sop0, p.sop1, p.type0, p.type1,
   p.count / 256 % 256, p.count % 256,
   p.size / 256 % 256, p.size % 256] ++ p.payload.getD []

/-- Feeding a list of bytes one at a time through pakit_receive_byte,
collecting the status returned for each byte and the final receiver. -/
def feedStatuses (receiver : PakitReceiver) : List Nat → List PakitStatus × PakitReceiver
  | [] => ([], receiver)
  | byte :: rest =>
    let res := pakit_receive_byte receiver byte
    let next := feedStatuses res.2 rest
    (res.1 :: next.1, next.2)

/-- Modelled from the spec ("repeatedly invoke the single-byte operation,
advancing the offset, until either the sequence is exhausted or a
non-InProgress status is produced"): the reference behaviour that the batch
operation pakit_receive_buffer is claimed to refine.  Returns the terminal
status, the resulting receiver and the number of bytes consumed. -/
def repeatedReceiveByte (receiver : PakitReceiver) :
    List Nat → PakitStatus × PakitReceiver × Nat
  | [] => (.PAKIT_STATUS_IN_PROGRESS, receiver, 0)
  | byte :: rest =>
    let res := pakit_receive_byte receiver byte
    if res.1 = .PAKIT_STATUS_IN_PROGRESS then
      let next := repeatedReceiveByte res.2 rest
      (next.1, next.2.1, next.2.2 + 1)
    else
      (res.1, res.2, 1)

theorem HEADER_SIZE_eq : HEADER_SIZE = 8 := rfl

theorem MAX_PACKET_SIZE_eq : MAX_PACKET_SIZE = 263 := rfl

/-- Arithmetic bridge: the shift-or combination of two bytes equals the
usual base-256 value as long as the low byte is in range. -/
theorem be16_eq (hi lo : Nat) (h : lo < 256) : be16 hi lo = hi * 256 + lo := by
  have h2 : lo < 2 ^ 8 := by simpa using h
  unfold be16
  rw [Nat.shiftLeft_eq, Nat.mul_comm hi (2 ^ 8), ← Nat.mul_add_lt_is_or h2 hi]

/-- Arithmetic bridge: masking with 0xFF is reduction modulo 256. -/
theorem land_255 (x : Nat) : x &&& 255 = x % 256 := by
  have h := Nat.and_pow_two_sub_one_eq_mod x 8
  norm_num at h
  exact h

/-- Unfolding lemma for pakit_receive_byte on a receiver in STATE_PAYLOAD
that has not exhausted the buffer. -/
theorem pakit_receive_byte_payload (buf : List Nat) (hc : Bool) (sz byte : Nat)
    (hov : buf.length < HEADER_SIZE + MAX_PACKET_SIZE) :
    pakit_receive_byte ⟨buf, hc, .STATE_PAYLOAD, sz⟩ byte =
      if buf.length + 1 ≥ HEADER_SIZE + sz then
        (.PAKIT_STATUS_SUCCESS, ⟨buf ++ [byte % 256], hc, .STATE_COMPLETE, sz⟩)
      else
        (.PAKIT_STATUS_IN_PROGRESS, ⟨buf ++ [byte % 256], hc, .STATE_PAYLOAD, sz⟩) := by
  have h1 : pakit_receive_byte ⟨buf, hc, .STATE_PAYLOAD, sz⟩ byte =
      if buf.length ≥ HEADER_SIZE + MAX_PACKET_SIZE then
        (.PAKIT_STATUS_ERROR_OVERFLOW, ⟨buf, hc, .STATE_PAYLOAD, sz⟩)
      else if (buf ++ [byte % 256]).length ≥ HEADER_SIZE + sz then
        (.PAKIT_STATUS_SUCCESS, ⟨buf ++ [byte % 256], hc, .STATE_COMPLETE, sz⟩)
      else
        (.PAKIT_STATUS_IN_PROGRESS, ⟨buf ++ [byte % 256], hc, .STATE_PAYLOAD, sz⟩) := rfl
  rw [h1, if_neg (by omega)]
  simp [List.length_append]

/-- Unfolding lemma for pakit_receive_byte on a receiver in STATE_COMPLETE
that has not exhausted the buffer: it restarts itself on a fresh receiver. -/
theorem pakit_receive_byte_complete (buf : List Nat) (hc : Bool) (sz byte : Nat)
    (hov : buf.length < HEADER_SIZE + MAX_PACKET_SIZE) :
    pakit_receive_byte ⟨buf, hc, .STATE_COMPLETE, sz⟩ byte =
      pakit_receive_byte pakit_init byte := by
  have h1 : pakit_receive_byte ⟨buf, hc, .STATE_COMPLETE, sz⟩ byte =
      if buf.length ≥ HEADER_SIZE + MAX_PACKET_SIZE then
        (.PAKIT_STATUS_ERROR_OVERFLOW, ⟨buf, hc, .STATE_COMPLETE, sz⟩)
      else
        pakit_receive_byte_go 1 pakit_init byte := rfl
  rw [h1, if_neg (by omega), pakit_receive_byte_go_fuel_eq]
  rfl

/-- Feeding a concatenation feeds the first list, then the second from the
receiver the first one produced. -/
theorem feedStatuses_append (r : PakitReceiver) (xs ys : List Nat) :
    feedStatuses r (xs ++ ys) =
      ((feedStatuses r xs).1 ++ (feedStatuses (feedStatuses r xs).2 ys).1,
       (feedStatuses (feedStatuses r xs).2 ys).2) := by
  induction xs generalizing r with
  | nil => simp [feedStatuses]
  | cons b rest ih => simp [feedStatuses, ih]

/-- Feeding the eight header bytes of a frame with a valid marker: the first
seven bytes report progress, the eighth completes the header (with the code's
own size-field bound), setting the state and status according to whether the
declared payload size is zero. -/
theorem feedStatuses_nil (r : PakitReceiver) : feedStatuses r [] = ([], r) := rfl

theorem feedStatuses_cons (r : PakitReceiver) (b : Nat) (rest : List Nat) :
    feedStatuses r (b :: rest) =
      ((pakit_receive_byte r b).1 :: (feedStatuses (pakit_receive_byte r b).2 rest).1,
       (feedStatuses (pakit_receive_byte r b).2 rest).2) := rfl

/-- Sequence of receiver states observed after each byte fed, in order. -/
def feedStates (receiver : PakitReceiver) : List Nat → List ReceiverState
  | [] => []
  | byte :: rest =>
    let res := pakit_receive_byte receiver byte
    res.2.state :: feedStates res.2 rest

theorem feedStates_nil (r : PakitReceiver) : feedStates r [] = [] := rfl

theorem feedStates_cons (r : PakitReceiver) (b : Nat) (rest : List Nat) :
    feedStates r (b :: rest) =
      (pakit_receive_byte r b).2.state :: feedStates (pakit_receive_byte r b).2 rest := rfl

theorem step_sop0 (b : Nat) :
    pakit_receive_byte pakit_init b =
      (.PAKIT_STATUS_IN_PROGRESS, ⟨[b % 256], false, .STATE_UNIQUE_ID, 0⟩) := rfl

theorem step_sop1 (x0 b : Nat) :
    pakit_receive_byte ⟨[x0], false, .STATE_UNIQUE_ID, 0⟩ b =
      (if x0 ≠ EXPECTED_SOP_0 ∨ b % 256 ≠ EXPECTED_SOP_1 then
         (.PAKIT_STATUS_ERROR_INVALID_SOP, pakit_init)
       else
         (.PAKIT_STATUS_IN_PROGRESS, ⟨[x0, b % 256], false, .STATE_PACKET_TYPE, 0⟩)) := rfl

theorem step_type0 (x0 x1 b : Nat) :
    pakit_receive_byte ⟨[x0, x1], false, .STATE_PACKET_TYPE, 0⟩ b =
      (.PAKIT_STATUS_IN_PROGRESS, ⟨[x0, x1, b % 256], false, .STATE_PACKET_TYPE, 0⟩) := rfl

theorem step_type1 (x0 x1 x2 b : Nat) :
    pakit_receive_byte ⟨[x0, x1, x2], false, .STATE_PACKET_TYPE, 0⟩ b =
      (.PAKIT_STATUS_IN_PROGRESS, ⟨[x0, x1, x2, b % 256], false, .STATE_COUNT, 0⟩) := rfl

theorem step_count0 (x0 x1 x2 x3 b : Nat) :
    pakit_receive_byte ⟨[x0, x1, x2, x3], false, .STATE_COUNT, 0⟩ b =
      (.PAKIT_STATUS_IN_PROGRESS, ⟨[x0, x1, x2, x3, b % 256], false, .STATE_COUNT, 0⟩) := rfl

theorem step_count1 (x0 x1 x2 x3 x4 b : Nat) :
    pakit_receive_byte ⟨[x0, x1, x2, x3, x4], false, .STATE_COUNT, 0⟩ b =
      (.PAKIT_STATUS_IN_PROGRESS,
       ⟨[x0, x1, x2, x3, x4, b % 256], false, .STATE_SIZE, 0⟩) := rfl

theorem step_size0 (x0 x1 x2 x3 x4 x5 b : Nat) :
    pakit_receive_byte ⟨[x0, x1, x2, x3, x4, x5], false, .STATE_SIZE, 0⟩ b =
      (.PAKIT_STATUS_IN_PROGRESS,
       ⟨[x0, x1, x2, x3, x4, x5, b % 256], false, .STATE_SIZE, 0⟩) := rfl

theorem step_size1 (x0 x1 x2 x3 x4 x5 x6 b : Nat) :
    pakit_receive_byte ⟨[x0, x1, x2, x3, x4, x5, x6], false, .STATE_SIZE, 0⟩ b =
      (if be16 x6 (b % 256) > MAX_PACKET_SIZE then
         (.PAKIT_STATUS_ERROR_SIZE_LARGE, pakit_init)
       else if be16 x6 (b % 256) = 0 then
         (.PAKIT_STATUS_SUCCESS,
          ⟨[x0, x1, x2, x3, x4, x5, x6, b % 256], true, .STATE_COMPLETE,
           be16 x6 (b % 256)⟩)
       else
         (.PAKIT_STATUS_IN_PROGRESS,
          ⟨[x0, x1, x2, x3, x4, x5, x6, b % 256], true, .STATE_PAYLOAD,
           be16 x6 (b % 256)⟩)) := rfl

/-- Feeding the eight header bytes of a frame with a valid marker: the first
seven bytes report progress, the eighth completes the header (with the code's
own size-field bound), setting the state and status according to whether the
declared payload size is zero. -/
theorem feed_header (t0 t1 c0 c1 s0 s1 : Nat)
    (hsz : s0 % 256 * 256 + s1 % 256 ≤ MAX_PACKET_SIZE) :
    feedStatuses pakit_init [176, 178, t0, t1, c0, c1, s0, s1] =
      (List.replicate 7 .PAKIT_STATUS_IN_PROGRESS ++
         [if s0 % 256 * 256 + s1 % 256 = 0 then .PAKIT_STATUS_SUCCESS
          else .PAKIT_STATUS_IN_PROGRESS],
       { buffer := [176, 178, t0 % 256, t1 % 256, c0 % 256, c1 % 256, s0 % 256, s1 % 256],
         header_complete := true,
         state := if s0 % 256 * 256 + s1 % 256 = 0 then .STATE_COMPLETE else .STATE_PAYLOAD,
         expected_payload_size := s0 % 256 * 256 + s1 % 256 }) := by
  have hb : be16 (s0 % 256) (s1 % 256) = s0 % 256 * 256 + s1 % 256 :=
    be16_eq _ _ (Nat.mod_lt _ (by norm_num))
  have e1 : pakit_receive_byte pakit_init 176 =
      (.PAKIT_STATUS_IN_PROGRESS, ⟨[176], false, .STATE_UNIQUE_ID, 0⟩) := rfl
  have e2 : pakit_receive_byte ⟨[176], false, .STATE_UNIQUE_ID, 0⟩ 178 =
      (.PAKIT_STATUS_IN_PROGRESS, ⟨[176, 178], false, .STATE_PACKET_TYPE, 0⟩) := rfl
  have e3 : pakit_receive_byte ⟨[176, 178], false, .STATE_PACKET_TYPE, 0⟩ t0 =
      (.PAKIT_STATUS_IN_PROGRESS,
       ⟨[176, 178, t0 % 256], false, .STATE_PACKET_TYPE, 0⟩) := rfl
  have e4 : pakit_receive_byte ⟨[176, 178, t0 % 256], false, .STATE_PACKET_TYPE, 0⟩ t1 =
      (.PAKIT_STATUS_IN_PROGRESS,
       ⟨[176, 178, t0 % 256, t1 % 256], false, .STATE_COUNT, 0⟩) := rfl
  have e5 : pakit_receive_byte ⟨[176, 178, t0 % 256, t1 % 256], false, .STATE_COUNT, 0⟩ c0 =
      (.PAKIT_STATUS_IN_PROGRESS,
       ⟨[176, 178, t0 % 256, t1 % 256, c0 % 256], false, .STATE_COUNT, 0⟩) := rfl
  have e6 : pakit_receive_byte
      ⟨[176, 178, t0 % 256, t1 % 256, c0 % 256], false, .STATE_COUNT, 0⟩ c1 =
      (.PAKIT_STATUS_IN_PROGRESS,
       ⟨[176, 178, t0 % 256, t1 % 256, c0 % 256, c1 % 256], false, .STATE_SIZE, 0⟩) := rfl
  have e7 : pakit_receive_byte
      ⟨[176, 178, t0 % 256, t1 % 256, c0 % 256, c1 % 256], false, .STATE_SIZE, 0⟩ s0 =
      (.PAKIT_STATUS_IN_PROGRESS,
       ⟨[176, 178, t0 % 256, t1 % 256, c0 % 256, c1 % 256, s0 % 256],
        false, .STATE_SIZE, 0⟩) := rfl
  have e8 : pakit_receive_byte
      ⟨[176, 178, t0 % 256, t1 % 256, c0 % 256, c1 % 256, s0 % 256],
       false, .STATE_SIZE, 0⟩ s1 =
      (if be16 (s0 % 256) (s1 % 256) > MAX_PACKET_SIZE then
         (.PAKIT_STATUS_ERROR_SIZE_LARGE, pakit_init)
       else if be16 (s0 % 256) (s1 % 256) = 0 then
         (.PAKIT_STATUS_SUCCESS,
          ⟨[176, 178, t0 % 256, t1 % 256, c0 % 256, c1 % 256, s0 % 256, s1 % 256], true,
           .STATE_COMPLETE, be16 (s0 % 256) (s1 % 256)⟩)
       else
         (.PAKIT_STATUS_IN_PROGRESS,
          ⟨[176, 178, t0 % 256, t1 % 256, c0 % 256, c1 % 256, s0 % 256, s1 % 256], true,
           .STATE_PAYLOAD, be16 (s0 % 256) (s1 % 256)⟩)) := rfl
  simp only [feedStatuses_cons, feedStatuses_nil, e1, e2, e3, e4, e5, e6, e7, e8]
  rw [hb, if_neg (by omega)]
  by_cases hz : s0 % 256 * 256 + s1 % 256 = 0
  · simp [hz]
  · simp [hz]

/-- Feeding payload bytes into a receiver awaiting payload: every byte but the
last reports progress, and the last one completes the frame. -/
theorem feed_payload (p : List Nat) : ∀ (buf : List Nat) (hc : Bool) (sz : Nat),
    p ≠ [] → sz ≤ MAX_PACKET_SIZE → buf.length + p.length = HEADER_SIZE + sz →
    feedStatuses ⟨buf, hc, .STATE_PAYLOAD, sz⟩ p =
      (List.replicate (p.length - 1) .PAKIT_STATUS_IN_PROGRESS ++ [.PAKIT_STATUS_SUCCESS],
       ⟨buf ++ p.map (fun b => b % 256), hc, .STATE_COMPLETE, sz⟩) := by
  induction p with
  | nil => intro buf hc sz hne _ _; exact absurd rfl hne
  | cons b rest ih =>
    intro buf hc sz _ hszle hlen
    simp only [List.length_cons] at hlen
    have hov : buf.length < HEADER_SIZE + MAX_PACKET_SIZE := by omega
    rcases eq_or_ne rest [] with hrest | hrest
    · subst hrest
      simp only [List.length_nil] at hlen
      have hstep : pakit_receive_byte ⟨buf, hc, .STATE_PAYLOAD, sz⟩ b =
          (.PAKIT_STATUS_SUCCESS, ⟨buf ++ [b % 256], hc, .STATE_COMPLETE, sz⟩) := by
        rw [pakit_receive_byte_payload _ _ _ _ hov, if_pos (by omega)]
      simp [feedStatuses, hstep]
    · have hrl : 0 < rest.length := List.length_pos.mpr hrest
      have hstep : pakit_receive_byte ⟨buf, hc, .STATE_PAYLOAD, sz⟩ b =
          (.PAKIT_STATUS_IN_PROGRESS, ⟨buf ++ [b % 256], hc, .STATE_PAYLOAD, sz⟩) := by
        rw [pakit_receive_byte_payload _ _ _ _ hov, if_neg (by omega)]
      have hrec := ih (buf ++ [b % 256]) hc sz hrest hszle
        (by simp only [List.length_append, List.length_cons, List.length_nil]; omega)
      obtain ⟨m, hm⟩ : ∃ m, rest.length = m + 1 := ⟨rest.length - 1, by omega⟩
      simp [feedStatuses, hstep, hrec, hm, List.replicate_succ, List.append_assoc]

/-- Gluing the status lists of the header phase and the payload phase of a
frame into one run of in-progress statuses followed by the final one. -/
theorem replicate_glue {α : Type} (a s : α) (k m : Nat) :
    (List.replicate k a ++ [a]) ++ (List.replicate m a ++ [s]) =
      List.replicate (k + 1 + m) a ++ [s] := by
  rw [← List.replicate_succ' k a, ← List.append_assoc, ← List.replicate_add]

/-- Feeding a complete well-formed frame (valid marker, in-range size field,
payload of exactly the declared length) from a fresh receiver: all bytes but
the last report progress, the last reports success, and the resulting receiver
holds the whole frame with a complete header. -/
theorem feed_frame (t0 t1 c0 c1 s0 s1 : Nat) (p : List Nat)
    (h0 : t0 < 256) (h1 : t1 < 256) (h2 : c0 < 256) (h3 : c1 < 256)
    (h4 : s0 < 256) (h5 : s1 < 256)
    (hsz : s0 * 256 + s1 ≤ MAX_PACKET_SIZE) (hp : p.length = s0 * 256 + s1) :
    feedStatuses pakit_init ([176, 178, t0, t1, c0, c1, s0, s1] ++ p) =
      (List.replicate (7 + (s0 * 256 + s1)) .PAKIT_STATUS_IN_PROGRESS ++
         [.PAKIT_STATUS_SUCCESS],
       ⟨[176, 178, t0, t1, c0, c1, s0, s1] ++ p.map (fun b => b % 256), true,
        .STATE_COMPLETE, s0 * 256 + s1⟩) := by
  have hh := feed_header t0 t1 c0 c1 s0 s1
    (by rw [Nat.mod_eq_of_lt h4, Nat.mod_eq_of_lt h5]; exact hsz)
  rw [Nat.mod_eq_of_lt h0, Nat.mod_eq_of_lt h1, Nat.mod_eq_of_lt h2, Nat.mod_eq_of_lt h3,
      Nat.mod_eq_of_lt h4, Nat.mod_eq_of_lt h5] at hh
  rw [feedStatuses_append, hh]
  by_cases hz : s0 * 256 + s1 = 0
  · have hp0 : p = [] := List.length_eq_zero.mp (by omega)
    subst hp0
    simp [feedStatuses, hz]
  · have hpne : p ≠ [] := by
      intro hpe
      rw [hpe] at hp
      simp only [List.length_nil] at hp
      omega
    have hfp := feed_payload p [176, 178, t0, t1, c0, c1, s0, s1] true (s0 * 256 + s1) hpne hsz
      (by simp only [List.length_cons, List.length_nil, HEADER_SIZE_eq]; omega)
    rw [if_neg hz, if_neg hz, hfp, replicate_glue,
      show 7 + 1 + (p.length - 1) = 7 + (s0 * 256 + s1) from by omega]

/-- Materializing a receiver that holds a complete frame yields the packet
with the header fields decoded from the buffer and the payload region. -/
theorem extract_frame (t0 t1 c0 c1 s0 s1 : Nat) (q : List Nat)
    (h3 : c1 < 256) (h5 : s1 < 256) (hq : q.length = s0 * 256 + s1) :
    pakit_is_packet_complete
      ⟨[176, 178, t0, t1, c0, c1, s0, s1] ++ q, true, .STATE_COMPLETE, s0 * 256 + s1⟩ =
      some { sop0 := 176, sop1 := 178, type0 := t0, type1 := t1,
             count := c0 * 256 + c1, size := s0 * 256 + s1, payload := some q } := by
  have hred : pakit_is_packet_complete
      ⟨[176, 178, t0, t1, c0, c1, s0, s1] ++ q, true, .STATE_COMPLETE, s0 * 256 + s1⟩ =
      (if q.length + 8 < HEADER_SIZE + be16 s0 s1 then none
       else some { sop0 := 176, sop1 := 178, type0 := t0, type1 := t1,
                   count := be16 c0 c1, size := be16 s0 s1, payload := some q }) := rfl
  rw [hred, be16_eq _ _ h5, be16_eq _ _ h3, if_neg (by rw [HEADER_SIZE_eq]; omega)]

/-- Unfolding lemma for pakit_receive_byte when the received-byte counter has
already reached the buffer capacity: the byte is rejected with the overflow
status and the receiver is left unchanged. -/
theorem pakit_receive_byte_overflow (r : PakitReceiver) (byte : Nat)
    (hov : r.received_bytes ≥ HEADER_SIZE + MAX_PACKET_SIZE) :
    pakit_receive_byte r byte = (.PAKIT_STATUS_ERROR_OVERFLOW, r) := by
  simp only [pakit_receive_byte, pakit_receive_byte_go]
  rw [if_pos hov]

/-- Claim C5: for every valid frame (marker bytes 0xB0 0xB2, size field at
most 255, payload of exactly the declared length) fed byte by byte to a fresh
receiver, every byte except the last returns the in-progress status and the
last byte returns success; in particular the example frame with type 0x0103,
count 1 and payload "Hello" produces twelve in-progress statuses, then
success, and materializes to the expected packet. -/
theorem valid_frames_progress_then_success :
    (∀ (t0 t1 c0 c1 s0 s1 : Nat) (p : List Nat),
        t0 < 256 → t1 < 256 → c0 < 256 → c1 < 256 → s0 * 256 + s1 ≤ 255 →
        p.length = s0 * 256 + s1 →
        (feedStatuses pakit_init ([0xB0, 0xB2, t0, t1, c0, c1, s0, s1] ++ p)).1 =
          List.replicate (7 + (s0 * 256 + s1)) .PAKIT_STATUS_IN_PROGRESS ++
            [.PAKIT_STATUS_SUCCESS]) ∧
      (feedStatuses pakit_init
          [0xB0, 0xB2, 0x01, 0x03, 0x00, 0x01, 0x00, 0x05, 0x48, 0x65, 0x6C, 0x6C, 0x6F]).1 =
        List.replicate 12 .PAKIT_STATUS_IN_PROGRESS ++ [.PAKIT_STATUS_SUCCESS] ∧
      pakit_is_packet_complete
          (feedStatuses pakit_init
            [0xB0, 0xB2, 0x01, 0x03, 0x00, 0x01, 0x00, 0x05, 0x48, 0x65, 0x6C, 0x6C, 0x6F]).2 =
        some { sop0 := 0xB0, sop1 := 0xB2, type0 := 0x01, type1 := 0x03, count := 1,
               size := 5, payload := some [0x48, 0x65, 0x6C, 0x6C, 0x6F] } := by
  refine ⟨?_, by decide, by decide⟩
  intro t0 t1 c0 c1 s0 s1 p h0 h1 h2 h3 hsz hp
  have h4 : s0 < 256 := by omega
  have h5 : s1 < 256 := by omega
  rw [feed_frame t0 t1 c0 c1 s0 s1 p h0 h1 h2 h3 h4 h5
    (by rw [MAX_PACKET_SIZE_eq]; omega) hp]

/-- Witness for claim C5 at a concrete input: the minimal zero-payload frame. -/
theorem valid_frames_progress_then_success_witness :
    (feedStatuses pakit_init ([0xB0, 0xB2, 0, 0, 0, 0, 0, 0] ++ [])).1 =
      List.replicate (7 + (0 * 256 + 0)) .PAKIT_STATUS_IN_PROGRESS ++
        [.PAKIT_STATUS_SUCCESS] :=
  valid_frames_progress_then_success.1 0 0 0 0 0 0 [] (by decide) (by decide) (by decide)
    (by decide) (by decide) (by decide)

/-- Claim C6: for every input whose first two bytes are not the pair
(0xB0, 0xB2), the first byte returns the in-progress status, the second byte
returns the invalid-marker error, and the receiver is reset to its initial
state so that the remaining bytes are processed exactly as by a fresh
receiver. -/
theorem invalid_sop_on_second_byte (b0 b1 : Nat) (rest : List Nat)
    (h : ¬(b0 % 256 = 0xB0 ∧ b1 % 256 = 0xB2)) :
    feedStatuses pakit_init (b0 :: b1 :: rest) =
      (.PAKIT_STATUS_IN_PROGRESS :: .PAKIT_STATUS_ERROR_INVALID_SOP ::
         (feedStatuses pakit_init rest).1,
       (feedStatuses pakit_init rest).2) := by
  have e1 : pakit_receive_byte pakit_init b0 =
      (.PAKIT_STATUS_IN_PROGRESS, ⟨[b0 % 256], false, .STATE_UNIQUE_ID, 0⟩) := rfl
  have e2 : pakit_receive_byte ⟨[b0 % 256], false, .STATE_UNIQUE_ID, 0⟩ b1 =
      (if b0 % 256 ≠ EXPECTED_SOP_0 ∨ b1 % 256 ≠ EXPECTED_SOP_1 then
         (.PAKIT_STATUS_ERROR_INVALID_SOP, pakit_init)
       else
         (.PAKIT_STATUS_IN_PROGRESS,
          ⟨[b0 % 256, b1 % 256], false, .STATE_PACKET_TYPE, 0⟩)) := rfl
  have hcond : b0 % 256 ≠ EXPECTED_SOP_0 ∨ b1 % 256 ≠ EXPECTED_SOP_1 := by
    rw [show EXPECTED_SOP_0 = 176 from rfl, show EXPECTED_SOP_1 = 178 from rfl]
    omega
  simp only [feedStatuses_cons, e1, e2, if_pos hcond]

/-- Witness for claim C6 at the concrete input of the spec: bytes A1 A2. -/
theorem invalid_sop_on_second_byte_witness :
    feedStatuses pakit_init (0xA1 :: 0xA2 :: []) =
      (.PAKIT_STATUS_IN_PROGRESS :: .PAKIT_STATUS_ERROR_INVALID_SOP ::
         (feedStatuses pakit_init []).1,
       (feedStatuses pakit_init []).2) :=
  invalid_sop_on_second_byte 0xA1 0xA2 [] (by decide)

/-- Claim C7: a frame whose size field is zero completes with success
immediately on the eighth header byte; the receiver passes through the marker,
type, count and size states straight to the complete state, so the payload
state is never observed; and materialization then returns a packet
with size 0 and a present (non-null) empty payload reference. -/
theorem zero_size_frame_immediate_success (t0 t1 c0 c1 : Nat)
    (h0 : t0 < 256) (h1 : t1 < 256) (h2 : c0 < 256) (h3 : c1 < 256) :
    feedStatuses pakit_init [0xB0, 0xB2, t0, t1, c0, c1, 0, 0] =
      (List.replicate 7 .PAKIT_STATUS_IN_PROGRESS ++ [.PAKIT_STATUS_SUCCESS],
       ⟨[0xB0, 0xB2, t0, t1, c0, c1, 0, 0], true, .STATE_COMPLETE, 0⟩) ∧
    feedStates pakit_init [0xB0, 0xB2, t0, t1, c0, c1, 0, 0] =
      [.STATE_UNIQUE_ID, .STATE_PACKET_TYPE, .STATE_PACKET_TYPE, .STATE_COUNT,
       .STATE_COUNT, .STATE_SIZE, .STATE_SIZE, .STATE_COMPLETE] ∧
    (pakit_is_packet_complete ⟨[0xB0, 0xB2, t0, t1, c0, c1, 0, 0], true,
        .STATE_COMPLETE, 0⟩ =
      some { sop0 := 0xB0, sop1 := 0xB2, type0 := t0, type1 := t1,
             count := c0 * 256 + c1, size := 0, payload := some [] }) ∧
    (some ([] : List Nat)).isSome = true := by
  refine ⟨?_, ?_, ?_, rfl⟩
  · have h := feed_frame t0 t1 c0 c1 0 0 [] h0 h1 h2 h3 (by norm_num) (by norm_num)
      (by rw [MAX_PACKET_SIZE_eq]; norm_num) (by simp)
    simpa using h
  · simp [feedStates_cons, feedStates_nil, step_sop0, step_sop1, step_type0, step_type1,
      step_count0, step_count1, step_size0, step_size1, MAX_PACKET_SIZE_eq,
      show EXPECTED_SOP_0 = 176 from rfl, show EXPECTED_SOP_1 = 178 from rfl,
      show be16 0 0 = 0 from rfl]
  · have h := extract_frame t0 t1 c0 c1 0 0 [] h3 (by norm_num) (by simp)
    simpa using h

/-- Witness for claim C7 at a concrete input: type bytes 01 03, count 1. -/
theorem zero_size_frame_immediate_success_witness :
    feedStatuses pakit_init [0xB0, 0xB2, 0x01, 0x03, 0x00, 0x01, 0, 0] =
      (List.replicate 7 .PAKIT_STATUS_IN_PROGRESS ++ [.PAKIT_STATUS_SUCCESS],
       ⟨[0xB0, 0xB2, 0x01, 0x03, 0x00, 0x01, 0, 0], true, .STATE_COMPLETE, 0⟩) ∧
    feedStates pakit_init [0xB0, 0xB2, 0x01, 0x03, 0x00, 0x01, 0, 0] =
      [.STATE_UNIQUE_ID, .STATE_PACKET_TYPE, .STATE_PACKET_TYPE, .STATE_COUNT,
       .STATE_COUNT, .STATE_SIZE, .STATE_SIZE, .STATE_COMPLETE] ∧
    (pakit_is_packet_complete ⟨[0xB0, 0xB2, 0x01, 0x03, 0x00, 0x01, 0, 0], true,
        .STATE_COMPLETE, 0⟩ =
      some { sop0 := 0xB0, sop1 := 0xB2, type0 := 0x01, type1 := 0x03,
             count := 0 * 256 + 1, size := 0, payload := some [] }) ∧
    (some ([] : List Nat)).isSome = true :=
  zero_size_frame_immediate_success 0x01 0x03 0x00 0x01 (by decide) (by decide) (by decide)
    (by decide)

/-- The while loop of pakit_receive_buffer agrees with the spec-side repeated
single-byte operation on the remaining suffix of the buffer: same terminal
status, same receiver, and the final position is the starting position plus
the number of bytes consumed. -/
theorem pakit_receive_buffer_loop_eq (buffer : List Nat) :
    ∀ (n current_pos : Nat) (r : PakitReceiver), buffer.length - current_pos = n →
    pakit_receive_buffer_loop r buffer current_pos =
      ((repeatedReceiveByte r (buffer.drop current_pos)).1,
       (repeatedReceiveByte r (buffer.drop current_pos)).2.1,
       current_pos + (repeatedReceiveByte r (buffer.drop current_pos)).2.2) := by
  intro n
  induction n with
  | zero =>
    intro pos r hn
    have hle : buffer.length ≤ pos := by omega
    rw [List.drop_eq_nil_of_le hle, pakit_receive_buffer_loop, dif_neg (by omega)]
    simp [repeatedReceiveByte]
  | succ n ih =>
    intro pos r hn
    have hlt : pos < buffer.length := by omega
    rw [List.drop_eq_getElem_cons hlt, pakit_receive_buffer_loop, dif_pos hlt]
    simp only [repeatedReceiveByte, List.get_eq_getElem]
    by_cases hst : (pakit_receive_byte r buffer[pos]).1 = .PAKIT_STATUS_IN_PROGRESS
    · rw [if_pos hst, if_pos hst, ih (pos + 1) _ (by omega)]
      simp [Nat.add_comm, Nat.add_assoc, Nat.add_left_comm]
    · rw [if_neg hst, if_neg hst]

/-- Claim C4: feeding a buffer from a starting offset through the batch
operation pakit_receive_buffer returns exactly the status and receiver that
repeated single-byte calls produce on the suffix from that offset, stopping at
the first status other than in-progress, and writes back an end offset equal
to the starting offset plus the number of bytes consumed. -/
theorem receive_buffer_refines_repeated (r : PakitReceiver) (bytes : List Nat) (start : Nat) :
    pakit_receive_buffer r bytes (some start) =
      ((repeatedReceiveByte r (bytes.drop start)).1,
       (repeatedReceiveByte r (bytes.drop start)).2.1,
       some (start + (repeatedReceiveByte r (bytes.drop start)).2.2)) := by
  simp [pakit_receive_buffer,
    pakit_receive_buffer_loop_eq bytes (bytes.length - start) start r rfl]

/-- Claim C10: a batch call whose starting offset is at or past the end of the
buffer consumes nothing: it returns the in-progress status, leaves the
receiver untouched (whatever its state, including complete), and writes the
starting offset back unchanged. -/
theorem receive_buffer_past_end (r : PakitReceiver) (bytes : List Nat) (start : Nat)
    (h : bytes.length ≤ start) :
    pakit_receive_buffer r bytes (some start) =
      (.PAKIT_STATUS_IN_PROGRESS, r, some start) := by
  have hl : pakit_receive_buffer_loop r bytes start =
      (.PAKIT_STATUS_IN_PROGRESS, r, start) := by
    rw [pakit_receive_buffer_loop, dif_neg (by omega)]
  simp [pakit_receive_buffer, hl]

/-- Witness for claim C10: a completed receiver, a two-byte buffer, offset 5. -/
theorem receive_buffer_past_end_witness :
    pakit_receive_buffer ⟨[0xB0, 0xB2, 0, 0, 0, 0, 0, 0], true, .STATE_COMPLETE, 0⟩
        [1, 2] (some 5) =
      (.PAKIT_STATUS_IN_PROGRESS,
       ⟨[0xB0, 0xB2, 0, 0, 0, 0, 0, 0], true, .STATE_COMPLETE, 0⟩, some 5) :=
  receive_buffer_past_end _ [1, 2] 5 (by decide)

/-- Claim C9: pakit_packet_create fails (returning false and writing nothing)
exactly when the out-pointer is null, the payload reference is null with a
nonzero size, or the payload reference is non-null with size zero; otherwise
it succeeds and fills the record with the fixed marker pair, the big-endian
split of the 16-bit type, the count and size copied through, and the payload
reference stored without copying. -/
theorem packet_create_spec (pn : Bool) (t c : Nat) (pl : Option (List Nat)) (ps : Nat)
    (ht : t < 65536) (hc : c < 65536) (hps : ps < 65536) :
    ((pakit_packet_create pn t c pl ps).1 = false ↔
        pn = true ∨ (pl = none ∧ 0 < ps) ∨ (pl ≠ none ∧ ps = 0)) ∧
      ((pakit_packet_create pn t c pl ps).1 = false →
        (pakit_packet_create pn t c pl ps).2 = none) ∧
      ((pakit_packet_create pn t c pl ps).1 = true →
        (pakit_packet_create pn t c pl ps).2 =
          some { sop0 := EXPECTED_SOP_0, sop1 := EXPECTED_SOP_1,
                 type0 := t / 256, type1 := t % 256,
                 count := c, size := ps, payload := pl }) := by
  have h1 : t % 65536 = t := Nat.mod_eq_of_lt ht
  have h2 : c % 65536 = c := Nat.mod_eq_of_lt hc
  have h3 : ps % 65536 = ps := Nat.mod_eq_of_lt hps
  have htype0 : t >>> 8 &&& 0xFF = t / 256 := by
    have hlt : t / 256 < 256 := by omega
    rw [Nat.shiftRight_eq_div_pow, land_255]
    norm_num
    exact hlt
  have htype1 : t &&& 0xFF = t % 256 := land_255 t
  simp only [pakit_packet_create, h1, h2, h3, htype0, htype1]
  cases pn with
  | true => simp
  | false =>
    by_cases hcond : (pl = none ∧ 0 < ps) ∨ (pl ≠ none ∧ ps = 0)
    · simp [hcond]
    · simp [hcond]

/-- Witness for claim C9 at concrete inputs: a successful creation. -/
theorem packet_create_spec_witness :
    ((pakit_packet_create false 0x0102 5 (some [1, 2, 3]) 3).1 = false ↔
        false = true ∨ ((some [1, 2, 3] : Option (List Nat)) = none ∧ 0 < 3) ∨
          ((some [1, 2, 3] : Option (List Nat)) ≠ none ∧ 3 = 0)) ∧
      ((pakit_packet_create false 0x0102 5 (some [1, 2, 3]) 3).1 = false →
        (pakit_packet_create false 0x0102 5 (some [1, 2, 3]) 3).2 = none) ∧
      ((pakit_packet_create false 0x0102 5 (some [1, 2, 3]) 3).1 = true →
        (pakit_packet_create false 0x0102 5 (some [1, 2, 3]) 3).2 =
          some { sop0 := EXPECTED_SOP_0, sop1 := EXPECTED_SOP_1,
                 type0 := 0x0102 / 256, type1 := 0x0102 % 256,
                 count := 5, size := 3, payload := some [1, 2, 3] }) :=
  packet_create_spec false 0x0102 5 (some [1, 2, 3]) 3 (by decide) (by decide) (by decide)

/-- Claim C3: round-trip law.  For every type, count, size and payload with
size at most 255 and consistent with payload presence (a null payload exactly
when size is 0, and otherwise a byte list of exactly that length), building a
packet with pakit_packet_create, serializing it per the wire table and feeding
the bytes to a fresh receiver lets pakit_is_packet_complete reproduce the type
bytes, count, size and payload content bit for bit. -/
theorem round_trip (ptype cnt size : Nat) (payload : Option (List Nat))
    (ht : ptype < 65536) (hcnt : cnt < 65536) (hsz : size ≤ 255)
    (hnone : payload = none ↔ size = 0)
    (hsome : ∀ l, payload = some l → l.length = size ∧ ∀ b ∈ l, b < 256) :
    ∃ pkt : Packet,
      pakit_packet_create false ptype cnt payload size = (true, some pkt) ∧
      ∃ decoded : Packet,
        pakit_is_packet_complete (feedStatuses pakit_init (serializePacket pkt)).2 =
          some decoded ∧
        decoded.type0 = pkt.type0 ∧ decoded.type1 = pkt.type1 ∧
        decoded.count = cnt ∧ decoded.size = size ∧
        decoded.payload = some (payload.getD []) := by
  have h1 : ptype % 65536 = ptype := Nat.mod_eq_of_lt ht
  have h2 : cnt % 65536 = cnt := Nat.mod_eq_of_lt hcnt
  have h3 : size % 65536 = size := Nat.mod_eq_of_lt (by omega)
  have hcond : ¬((payload = none ∧ size > 0) ∨ (payload ≠ none ∧ size = 0)) := by
    rcases payload with _ | l
    · have hz : size = 0 := hnone.mp rfl
      simp [hz]
    · have hz : size ≠ 0 := fun h => Option.noConfusion (hnone.mpr h)
      simp [hz]
  have hpkt : pakit_packet_create false ptype cnt payload size =
      (true, some { sop0 := EXPECTED_SOP_0, sop1 := EXPECTED_SOP_1,
                    type0 := ptype >>> 8 &&& 0xFF, type1 := ptype &&& 0xFF,
                    count := cnt, size := size, payload := payload }) := by
    simp only [pakit_packet_create, h1, h2, h3]
    simp [hcond]
  have hT0lt : ptype >>> 8 &&& 0xFF < 256 := by rw [land_255]; omega
  have hT1lt : ptype &&& 0xFF < 256 := by rw [land_255]; omega
  have hc0 : cnt / 256 % 256 = cnt / 256 := by omega
  have hser : serializePacket
      { sop0 := EXPECTED_SOP_0, sop1 := EXPECTED_SOP_1,
        type0 := ptype >>> 8 &&& 0xFF, type1 := ptype &&& 0xFF,
        count := cnt, size := size, payload := payload } =
      [176, 178, ptype >>> 8 &&& 0xFF, ptype &&& 0xFF, cnt / 256, cnt % 256, 0, size] ++
        payload.getD [] := by
    simp only [serializePacket]
    rw [hc0, show EXPECTED_SOP_0 = 176 from rfl, show EXPECTED_SOP_1 = 178 from rfl,
      show size / 256 % 256 = 0 from by omega, show size % 256 = size from by omega]
  have hplen : (payload.getD []).length = 0 * 256 + size := by
    rcases payload with _ | l
    · have hz : size = 0 := hnone.mp rfl
      simp [hz]
    · have hl := (hsome l rfl).1
      simpa using hl
  have hmap : (payload.getD []).map (fun b => b % 256) = payload.getD [] := by
    rcases payload with _ | l
    · simp
    · simp only [Option.getD_some]
      exact (List.map_congr_left
        (fun b hb => Nat.mod_eq_of_lt ((hsome l rfl).2 b hb))).trans (List.map_id l)
  have hframe := feed_frame (ptype >>> 8 &&& 0xFF) (ptype &&& 0xFF) (cnt / 256) (cnt % 256)
      0 size (payload.getD []) hT0lt hT1lt (by omega) (by omega) (by omega) (by omega)
      (by rw [MAX_PACKET_SIZE_eq]; omega) hplen
  have hrecv : (feedStatuses pakit_init
      ([176, 178, ptype >>> 8 &&& 0xFF, ptype &&& 0xFF, cnt / 256, cnt % 256, 0, size] ++
        payload.getD [])).2 =
      ⟨[176, 178, ptype >>> 8 &&& 0xFF, ptype &&& 0xFF, cnt / 256, cnt % 256, 0, size] ++
        payload.getD [], true, .STATE_COMPLETE, 0 * 256 + size⟩ := by
    rw [hframe]
    simp only [hmap]
  have hext := extract_frame (ptype >>> 8 &&& 0xFF) (ptype &&& 0xFF) (cnt / 256) (cnt % 256)
      0 size (payload.getD []) (by omega) (by omega) hplen
  refine ⟨_, hpkt,
    { sop0 := 176, sop1 := 178, type0 := ptype >>> 8 &&& 0xFF, type1 := ptype &&& 0xFF,
      count := cnt / 256 * 256 + cnt % 256, size := 0 * 256 + size,
      payload := some (payload.getD []) }, ?_, rfl, rfl,
    (by show cnt / 256 * 256 + cnt % 256 = cnt; omega),
    (by show 0 * 256 + size = size; omega), rfl⟩
  rw [hser, hrecv]
  exact hext

/-- Witness for claim C3 at the concrete example of the spec: type 0x0103,
count 1, payload "Hello". -/
theorem round_trip_witness :
    ∃ pkt : Packet,
      pakit_packet_create false 0x0103 1 (some [0x48, 0x65, 0x6C, 0x6C, 0x6F]) 5 =
        (true, some pkt) ∧
      ∃ decoded : Packet,
        pakit_is_packet_complete (feedStatuses pakit_init (serializePacket pkt)).2 =
          some decoded ∧
        decoded.type0 = pkt.type0 ∧ decoded.type1 = pkt.type1 ∧
        decoded.count = 1 ∧ decoded.size = 5 ∧
        decoded.payload = some ((some [0x48, 0x65, 0x6C, 0x6C, 0x6F]).getD []) :=
  round_trip 0x0103 1 5 (some [0x48, 0x65, 0x6C, 0x6C, 0x6F]) (by decide) (by decide)
    (by decide) (by simp) (by
      intro l hl
      simp only [Option.some.injEq] at hl
      subst hl
      refine ⟨by decide, by decide⟩)

/-- Claim C1 evidence: pakit.c validates the size field against
MAX_PACKET_SIZE = 255 + HEADER_SIZE = 263 rather than 255.  A header whose
size field is 256 (bytes 01 00) is therefore accepted: all eight header bytes
return the in-progress status, the header is marked complete and 256 payload
bytes are expected, where the specification demands the payload-too-large
error and a reset.  The first rejected size value is 264 (bytes 01 08). -/
theorem size_field_256_accepted :
    (feedStatuses pakit_init [0xB0, 0xB2, 0, 0, 0, 0, 1, 0]).1 =
        List.replicate 8 .PAKIT_STATUS_IN_PROGRESS ∧
      (feedStatuses pakit_init [0xB0, 0xB2, 0, 0, 0, 0, 1, 0]).2.header_complete = true ∧
      (feedStatuses pakit_init [0xB0, 0xB2, 0, 0, 0, 0, 1, 0]).2.expected_payload_size = 256 ∧
      (feedStatuses pakit_init [0xB0, 0xB2, 0, 0, 0, 0, 1, 8]).1.getLast? =
        some .PAKIT_STATUS_ERROR_SIZE_LARGE :=
  ⟨by decide, by decide, by decide, by decide⟩

/-- Claim C2 evidence: the overflow status is reachable from a fresh receiver.
A frame declaring the largest accepted size field 263 fills the buffer to its
capacity of 271 bytes upon completion, and the next byte fed is rejected with
the overflow error, contradicting the claim that the defensive overflow guard
can never fire. -/
theorem overflow_reachable :
    (feedStatuses pakit_init
        (([0xB0, 0xB2, 0, 0, 0, 0, 1, 7] ++ List.replicate 263 0) ++ [0])).1.getLast? =
      some .PAKIT_STATUS_ERROR_OVERFLOW := by
  have hframe := feed_frame 0 0 0 0 1 7 (List.replicate 263 0) (by norm_num) (by norm_num)
    (by norm_num) (by norm_num) (by norm_num) (by norm_num)
    (by rw [MAX_PACKET_SIZE_eq]) (by rw [List.length_replicate])
  have hovstep : pakit_receive_byte
      ⟨[0xB0, 0xB2, 0, 0, 0, 0, 1, 7] ++
         (List.replicate 263 0).map (fun b => b % 256), true, .STATE_COMPLETE,
       1 * 256 + 7⟩ 0 =
      (.PAKIT_STATUS_ERROR_OVERFLOW,
       ⟨[0xB0, 0xB2, 0, 0, 0, 0, 1, 7] ++
          (List.replicate 263 0).map (fun b => b % 256), true, .STATE_COMPLETE,
        1 * 256 + 7⟩) :=
    pakit_receive_byte_overflow _ 0
      (by
        simp only [PakitReceiver.received_bytes, List.length_append, List.length_map,
          List.length_replicate, List.length_cons, List.length_nil, HEADER_SIZE_eq,
          MAX_PACKET_SIZE_eq]
        omega)
  rw [feedStatuses_append, hframe]
  simp only [feedStatuses_cons, feedStatuses_nil, hovstep]
  rw [List.getLast?_concat]

/-- Claim C8 counterexample: a reachable receiver in the complete state on
which pakit_receive_byte does not reset and reprocess.  After a frame with the
largest accepted size field 263, the receiver is complete with its counter at
buffer capacity; feeding 0xB0 then returns the overflow error and leaves the
receiver unchanged, while a fresh receiver returns the in-progress status for
the same byte. -/
theorem complete_at_capacity_not_reset :
    (feedStatuses pakit_init ([0xB0, 0xB2, 0, 0, 0, 0, 1, 7] ++ List.replicate 263 0)).2 =
        ⟨[0xB0, 0xB2, 0, 0, 0, 0, 1, 7] ++ List.replicate 263 (0 % 256), true,
         .STATE_COMPLETE, 1 * 256 + 7⟩ ∧
      (⟨[0xB0, 0xB2, 0, 0, 0, 0, 1, 7] ++ List.replicate 263 (0 % 256), true,
         .STATE_COMPLETE, 1 * 256 + 7⟩ : PakitReceiver).state = .STATE_COMPLETE ∧
      pakit_receive_byte
          ⟨[0xB0, 0xB2, 0, 0, 0, 0, 1, 7] ++ List.replicate 263 (0 % 256), true,
           .STATE_COMPLETE, 1 * 256 + 7⟩ 0xB0 =
        (.PAKIT_STATUS_ERROR_OVERFLOW,
         ⟨[0xB0, 0xB2, 0, 0, 0, 0, 1, 7] ++ List.replicate 263 (0 % 256), true,
          .STATE_COMPLETE, 1 * 256 + 7⟩) ∧
      (pakit_receive_byte pakit_init 0xB0).1 = .PAKIT_STATUS_IN_PROGRESS := by
  refine ⟨?_, rfl, ?_, by decide⟩
  · have hframe := feed_frame 0 0 0 0 1 7 (List.replicate 263 0) (by norm_num) (by norm_num)
      (by norm_num) (by norm_num) (by norm_num) (by norm_num)
      (by rw [MAX_PACKET_SIZE_eq]) (by rw [List.length_replicate])
    rw [hframe]
    simp only [List.map_replicate]
  · exact pakit_receive_byte_overflow _ 0xB0
      (by
        simp only [PakitReceiver.received_bytes, List.length_append, List.length_replicate,
          List.length_cons, List.length_nil, HEADER_SIZE_eq, MAX_PACKET_SIZE_eq]
        omega)

/-- Claim C8 (amended): for every receiver in the complete state whose
received-byte counter is still below the buffer capacity of
HEADER_SIZE + MAX_PACKET_SIZE = 271 bytes, feeding a byte resets the receiver
and processes that byte exactly as a freshly initialized receiver would,
returning the same status and the same resulting receiver.  (At capacity,
which is reachable only through the out-of-spec size fields 256-263, the
overflow guard fires first; see complete_at_capacity_not_reset.) -/
theorem complete_state_resets_and_reprocesses (r : PakitReceiver) (byte : Nat)
    (hst : r.state = .STATE_COMPLETE)
    (hcap : r.received_bytes < HEADER_SIZE + MAX_PACKET_SIZE) :
    pakit_receive_byte r byte = pakit_receive_byte pakit_init byte := by
  obtain ⟨buf, hc, st, exp⟩ := r
  simp only at hst hcap
  subst hst
  exact pakit_receive_byte_complete buf hc exp byte
    (by simpa [PakitReceiver.received_bytes] using hcap)

/-- Witness for the amended claim C8: a completed zero-payload frame receiver,
well below capacity, reprocesses byte 5 exactly as a fresh receiver. -/
theorem complete_state_resets_and_reprocesses_witness :
    pakit_receive_byte ⟨[0xB0, 0xB2, 0, 1, 0, 1, 0, 0], true, .STATE_COMPLETE, 0⟩ 5 =
      pakit_receive_byte pakit_init 5 :=
  complete_state_resets_and_reprocesses _ 5 (by decide) (by decide)

end Pakit

